import Mathlib

/-!
Verification of the order-to-availability reconciliation engine of
`main_filter.py`.  The pipeline expands each pending order into one row per
stay night, resolves an available count for each night against the scraped
blackout (availability) table, and aggregates per order and per
(resort, bed type) group.  Dates are modelled as day numbers (`Int`): the
code's date arithmetic is day granular (`timedelta(days=1)` steps and a
daily `date_range`).
-/

/-- Room configuration categories, in the fixed priority order in which the
code scans the boolean flag columns: Studio, Bed1, Bed2, Bed3, Bed4. -/
inductive BedType
  | studio
  | bed1
  | bed2
  | bed3
  | bed4
deriving DecidableEq

/-- One pending reservation: a row of `all_resorts_simple_orders.csv` as read
by `map_orders_to_blackout_data` (columns the reconciliation touches). -/
structure Order where
  orderId : Nat
  resortId : Nat
  resort : String
  propertyTypeId : Nat
  roomTypeId : Nat
  studio : Bool
  bed1 : Bool
  bed2 : Bool
  bed3 : Bool
  bed4 : Bool
  arrival : Int
  departure : Int
  status : String
deriving DecidableEq

/-- One availability snapshot: a row of `latest_blackout_scrapping_data.csv`. -/
structure BlackoutRecord where
  resortId : Nat
  propertyTypeId : Nat
  roomTypeId : Nat
  studio : Bool
  bed1 : Bool
  bed2 : Bool
  bed3 : Bool
  bed4 : Bool
  date : Int
  availableCount : Int
  runCount : Nat
deriving DecidableEq

/-- First-true-wins bed type selection over the fixed column order
[Studio, Bed1, Bed2, Bed3, Bed4] (`main_filter.py` lines 186-195). -/
def bedTypeOf (o : Order) : Option BedType :=
  if o.studio then some BedType.studio
  else if o.bed1 then some BedType.bed1
  else if o.bed2 then some BedType.bed2
  else if o.bed3 then some BedType.bed3
  else if o.bed4 then some BedType.bed4
  else none

/-- The bed-type flag column of an availability record selected by a bed
type (the column access `blackout_df[bed_type]`). -/
def bedFlag (bt : BedType) (r : BlackoutRecord) : Bool :=
  match bt with
  | BedType.studio => r.studio
  | BedType.bed1 => r.bed1
  | BedType.bed2 => r.bed2
  | BedType.bed3 => r.bed3
  | BedType.bed4 => r.bed4

/-- The equality filter of `main_filter.py` lines 205-209: ResortId,
PropertyTypeId and Date of the record must match the order and the night
exactly. -/
def keyMatch (o : Order) (d : Int) (r : BlackoutRecord) : Bool :=
  r.resortId == o.resortId && r.propertyTypeId == o.propertyTypeId && r.date == d

/-- Resolved available count for one order night (`main_filter.py` lines
203-216): filter the blackout table by the exact key; when a bed type is
known and the key matches are nonempty, filter further by that bed-type
flag; sum AvailableCount over what is left, and 0 when nothing is left. -/
def availableCount (blackout : List BlackoutRecord) (o : Order) (d : Int) : Int :=
  let m := blackout.filter (keyMatch o d)
  let m2 := match bedTypeOf o with
    | some bt => if m.isEmpty then m else m.filter (bedFlag bt)
    | none => m
  if m2.isEmpty then 0 else (m2.map (fun r => r.availableCount)).sum

/-- One generated order-night row (the dict appended at lines 223-235). -/
structure OrderNight where
  orderId : Nat
  resortId : Nat
  resort : String
  propertyTypeId : Nat
  roomTypeId : Nat
  bedType : Option BedType
  date : Int
  arrival : Int
  departure : Int
  availableCount : Int
  status : String
deriving DecidableEq

/-- The inclusive daily sequence `pd.date_range(s, e)` with daily frequency,
as day numbers. -/
def dateRange (s e : Int) : List Int :=
  (List.range (e - s + 1).toNat).map (fun (i : Nat) => s + (i : Int))

/-- Expansion of one order (`main_filter.py` lines 172-237): with
`end_date = departure - 1`, when `end_date >= arrival` the order yields one
OrderNight per day of the inclusive range `[arrival, departure - 1]`;
otherwise it is skipped (a log line is printed) and contributes no rows. -/
def orderNights (blackout : List BlackoutRecord) (o : Order) : List OrderNight :=
  if o.arrival ≤ o.departure - 1 then
    (dateRange o.arrival (o.departure - 1)).map (fun d =>
      { orderId := o.orderId
        resortId := o.resortId
        resort := o.resort
        propertyTypeId := o.propertyTypeId
        roomTypeId := o.roomTypeId
        bedType := bedTypeOf o
        date := d
        arrival := o.arrival
        departure := o.departure
        availableCount := availableCount blackout o d
        status := o.status })
  else []

/-- The accumulation loop of `map_orders_to_blackout_data`: the results list
is the concatenation of each order's nights in input order.  The sort
applied before saving only permutes rows and no claim depends on row order,
so it is not modelled. -/
def mapOrdersToBlackoutData (blackout : List BlackoutRecord) : List Order → List OrderNight
  | [] => []
  | o :: rest => orderNights blackout o ++ mapOrdersToBlackoutData blackout rest

/-- The groupby key of `calculate_minimum_availability` (line 40):
(OrderId, Resort, BedType, Arrival, Departure). -/
structure OrderKey where
  orderId : Nat
  resort : String
  bedType : Option BedType
  arrival : Int
  departure : Int
deriving DecidableEq

def orderKeyOf (r : OrderNight) : OrderKey :=
  { orderId := r.orderId, resort := r.resort, bedType := r.bedType,
    arrival := r.arrival, departure := r.departure }

/-- Minimum of an integer list, `none` on the empty list (the pandas group
minimum, which only ever runs on nonempty groups). -/
def listMin : List Int → Option Int
  | [] => none
  | x :: xs => some (xs.foldl min x)

/-- The AvailableCount column of the rows of one per-order group. -/
def orderGroupVals (rows : List OrderNight) (k : OrderKey) : List Int :=
  (rows.filter (fun r => orderKeyOf r == k)).map (fun r => r.availableCount)

/-- `calculate_minimum_availability` lines 40-46: one (key, Min_Available)
row per distinct group key, where Min_Available is the group minimum of
AvailableCount.  `round(2)` is the identity on integer minima, and the later
merge of descriptive columns touches no claim, so neither is modelled. -/
def calculateMinimumAvailability (rows : List OrderNight) : List (OrderKey × Int) :=
  ((rows.map orderKeyOf).eraseDups).filterMap (fun k =>
    (listMin (orderGroupVals rows k)).map (fun m => (k, m)))

/-- The groupby key of `calculate_overall_minimum_availability` (line 405):
(Resort, BedType). -/
structure GroupKey where
  resort : String
  bedType : Option BedType
deriving DecidableEq

def groupKeyOf (r : OrderNight) : GroupKey :=
  { resort := r.resort, bedType := r.bedType }

/-- The Overall_Status lambda of `main_filter.py` lines 419-421. -/
def overallStatus (x : Int) : String :=
  if x > 0 then "Available" else "Not Available"

/-- The Risk_Level lambda of `main_filter.py` lines 423-428. -/
def riskLevel (x : Int) : String :=
  if x = 0 then "Critical"
  else if x ≤ 1 then "High Risk"
  else if x ≤ 3 then "Medium Risk"
  else "Low Risk"

/-- One output row of the global aggregation, restricted to the columns the
claims mention (max, mean and the distinct-count columns decide no claim). -/
structure OverallRow where
  resort : String
  bedType : Option BedType
  absoluteMinAvailable : Int
  overallStatus : String
  riskLevel : String
deriving DecidableEq

/-- The AvailableCount column of the rows of one (Resort, BedType) group. -/
def overallGroupVals (rows : List OrderNight) (k : GroupKey) : List Int :=
  (rows.filter (fun r => groupKeyOf r == k)).map (fun r => r.availableCount)

/-- `calculate_overall_minimum_availability` lines 404-428: per distinct
(Resort, BedType) key the absolute minimum of AvailableCount over all rows
of the group, with Overall_Status and Risk_Level derived from it. -/
def calculateOverallMinimumAvailability (rows : List OrderNight) : List OverallRow :=
  ((rows.map groupKeyOf).eraseDups).filterMap (fun k =>
    (listMin (overallGroupVals rows k)).map (fun m =>
      { resort := k.resort, bedType := k.bedType, absoluteMinAvailable := m,
        overallStatus := overallStatus m, riskLevel := riskLevel m }))

/-- Spec wording of the per-night availability match (for claim C2): the key
fields match exactly and, when the order's bed type is known, that bed-type
flag of the record is true. -/
def specNightMatch (o : Order) (d : Int) (r : BlackoutRecord) : Bool :=
  keyMatch o d r &&
    (match bedTypeOf o with
     | some bt => bedFlag bt r
     | none => true)

/-- Spec wording of the RunCount collapse (for claim C8): keep only the
records whose RunCount is maximal among the records sharing their
(ResortId, Date).  The code has no counterpart of this operation. -/
def specCollapseByMaxRunCount (records : List BlackoutRecord) : List BlackoutRecord :=
  records.filter (fun r =>
    records.all (fun s =>
      !(s.resortId == r.resortId && s.date == r.date) || decide (s.runCount ≤ r.runCount)))

/-! ### Helper lemmas -/

theorem mem_dateRange {s e d : Int} : d ∈ dateRange s e ↔ s ≤ d ∧ d ≤ e := by
  unfold dateRange
  simp only [List.mem_map, List.mem_range]
  constructor
  · rintro ⟨i, hi, rfl⟩
    omega
  · rintro ⟨h1, h2⟩
    exact ⟨(d - s).toNat, by omega, by omega⟩

theorem length_dateRange (s e : Int) : (dateRange s e).length = (e - s + 1).toNat := by
  unfold dateRange
  rw [List.length_map, List.length_range]

theorem sum_of_if_isEmpty (l : List BlackoutRecord) :
    (if l.isEmpty then (0 : Int) else (l.map (fun r => r.availableCount)).sum)
      = (l.map (fun r => r.availableCount)).sum := by
  cases l <;> simp

theorem filter_and_eq (p q : BlackoutRecord → Bool) (l : List BlackoutRecord) :
    l.filter (fun a => p a && q a) = (l.filter p).filter q := by
  induction l with
  | nil => rfl
  | cons x xs ih =>
    simp only [List.filter_cons]
    cases hp : p x <;> cases hq : q x <;> simp [hp, hq, ih, List.filter_cons]

theorem foldl_min_le_init (xs : List Int) (x : Int) : xs.foldl min x ≤ x := by
  induction xs generalizing x with
  | nil => exact le_refl x
  | cons y ys ih =>
    calc ys.foldl min (min x y) ≤ min x y := ih (min x y)
    _ ≤ x := min_le_left x y

theorem foldl_min_le_mem (xs : List Int) (x : Int) : ∀ y ∈ xs, xs.foldl min x ≤ y := by
  induction xs generalizing x with
  | nil => intro y hy; cases hy
  | cons z zs ih =>
    intro y hy
    rcases List.mem_cons.mp hy with h | h
    · subst h
      calc zs.foldl min (min x y) ≤ min x y := foldl_min_le_init zs (min x y)
      _ ≤ y := min_le_right x y
    · exact ih (min x z) y h

theorem foldl_min_mem (xs : List Int) (x : Int) :
    xs.foldl min x = x ∨ xs.foldl min x ∈ xs := by
  induction xs generalizing x with
  | nil => exact Or.inl rfl
  | cons y ys ih =>
    rcases ih (min x y) with h | h
    · rcases min_choice x y with hm | hm
      · exact Or.inl (by rw [List.foldl_cons, h, hm])
      · exact Or.inr (by rw [List.foldl_cons, h, hm]; exact List.mem_cons_self y ys)
    · exact Or.inr (List.mem_cons_of_mem y h)

theorem listMin_le {l : List Int} {m : Int} (h : listMin l = some m) :
    ∀ y ∈ l, m ≤ y := by
  cases l with
  | nil => cases h
  | cons x xs =>
    intro y hy
    have hm : m = xs.foldl min x := by
      simpa [listMin] using h.symm
    subst hm
    rcases List.mem_cons.mp hy with h | h
    · subst h; exact foldl_min_le_init xs y
    · exact foldl_min_le_mem xs x y h

theorem listMin_mem {l : List Int} {m : Int} (h : listMin l = some m) : m ∈ l := by
  cases l with
  | nil => cases h
  | cons x xs =>
    have hm : m = xs.foldl min x := by
      simpa [listMin] using h.symm
    subst hm
    rcases foldl_min_mem xs x with h | h
    · rw [h]; exact List.mem_cons_self x xs
    · exact List.mem_cons_of_mem x h

theorem availableCount_eq_sum (blackout : List BlackoutRecord) (o : Order) (d : Int) :
    availableCount blackout o d
      = ((blackout.filter (specNightMatch o d)).map (fun r => r.availableCount)).sum := by
  unfold availableCount specNightMatch
  cases hbt : bedTypeOf o with
  | none =>
    simp only [hbt, Bool.and_true]
    exact sum_of_if_isEmpty _
  | some bt =>
    simp only [hbt]
    rw [filter_and_eq (keyMatch o d) (bedFlag bt) blackout]
    cases hke : (blackout.filter (keyMatch o d)).isEmpty
    · simp only [hke, Bool.false_eq_true, if_false]
      exact sum_of_if_isEmpty _
    · have : blackout.filter (keyMatch o d) = [] := List.isEmpty_iff.mp hke
      simp [this]

theorem mem_calcMin {rows : List OrderNight} {k : OrderKey} {m : Int}
    (h : (k, m) ∈ calculateMinimumAvailability rows) :
    listMin (orderGroupVals rows k) = some m := by
  unfold calculateMinimumAvailability at h
  rcases List.mem_filterMap.mp h with ⟨a, _, hopt⟩
  rcases Option.map_eq_some'.mp hopt with ⟨v, hv, heq⟩
  injection heq with h1 h2
  subst h1
  subst h2
  exact hv

theorem mem_calcOverall {rows : List OrderNight} {g : OverallRow}
    (h : g ∈ calculateOverallMinimumAvailability rows) :
    listMin (overallGroupVals rows { resort := g.resort, bedType := g.bedType })
        = some g.absoluteMinAvailable ∧
      g.overallStatus = overallStatus g.absoluteMinAvailable ∧
      g.riskLevel = riskLevel g.absoluteMinAvailable := by
  unfold calculateOverallMinimumAvailability at h
  rcases List.mem_filterMap.mp h with ⟨a, _, hopt⟩
  rcases Option.map_eq_some'.mp hopt with ⟨v, hv, heq⟩
  subst heq
  exact ⟨hv, rfl, rfl⟩

theorem mem_orderGroupVals {rows : List OrderNight} {r : OrderNight} {k : OrderKey}
    (hr : r ∈ rows) (hk : orderKeyOf r = k) :
    r.availableCount ∈ orderGroupVals rows k := by
  unfold orderGroupVals
  exact List.mem_map_of_mem _ (List.mem_filter.mpr ⟨hr, by simp [hk]⟩)

theorem mem_overallGroupVals {rows : List OrderNight} {r : OrderNight} {k : GroupKey}
    (hr : r ∈ rows) (hk : groupKeyOf r = k) :
    r.availableCount ∈ overallGroupVals rows k := by
  unfold overallGroupVals
  exact List.mem_map_of_mem _ (List.mem_filter.mpr ⟨hr, by simp [hk]⟩)

theorem of_mem_orderGroupVals {rows : List OrderNight} {k : OrderKey} {v : Int}
    (h : v ∈ orderGroupVals rows k) :
    ∃ r, r ∈ rows ∧ orderKeyOf r = k ∧ r.availableCount = v := by
  unfold orderGroupVals at h
  rcases List.mem_map.mp h with ⟨r, hr, hv⟩
  rcases List.mem_filter.mp hr with ⟨hmem, hkey⟩
  exact ⟨r, hmem, by simpa using hkey, hv⟩

theorem of_mem_overallGroupVals {rows : List OrderNight} {k : GroupKey} {v : Int}
    (h : v ∈ overallGroupVals rows k) :
    ∃ r, r ∈ rows ∧ groupKeyOf r = k ∧ r.availableCount = v := by
  unfold overallGroupVals at h
  rcases List.mem_map.mp h with ⟨r, hr, hv⟩
  rcases List.mem_filter.mp hr with ⟨hmem, hkey⟩
  exact ⟨r, hmem, by simpa using hkey, hv⟩

/-! ### Concrete example data used by witnesses and counterexamples -/

/-- A three-night order (arrival day 0, departure day 3) for resort 7 with
the Bed1 flag set. -/
def exOrder : Order :=
  { orderId := 11, resortId := 7, resort := "Alpha", propertyTypeId := 2, roomTypeId := 3,
    studio := false, bed1 := true, bed2 := false, bed3 := false, bed4 := false,
    arrival := 0, departure := 3, status := "Searching" }

/-- An availability record matching `exOrder` on day 0 with 4 Bed1 units. -/
def exRec : BlackoutRecord :=
  { resortId := 7, propertyTypeId := 2, roomTypeId := 3,
    studio := false, bed1 := true, bed2 := false, bed3 := false, bed4 := false,
    date := 0, availableCount := 4, runCount := 1 }

/-- An order-night row of order 1 (stay days 0 and 1) with 5 units on day 0. -/
def exNight1 : OrderNight :=
  { orderId := 1, resortId := 7, resort := "Alpha", propertyTypeId := 2, roomTypeId := 3,
    bedType := some BedType.bed1, date := 0, arrival := 0, departure := 2,
    availableCount := 5, status := "Searching" }

/-- The second night of the same order, with 3 units. -/
def exNight2 : OrderNight := { exNight1 with date := 1, availableCount := 3 }

def exRows : List OrderNight := [exNight1, exNight2]

/-- The per-order group key of `exNight1` and `exNight2`. -/
def exOrderKey : OrderKey :=
  { orderId := 1, resort := "Alpha", bedType := some BedType.bed1,
    arrival := 0, departure := 2 }

/-- The (Resort, BedType) aggregate row produced from `exRows`. -/
def exGroupRow : OverallRow :=
  { resort := "Alpha", bedType := some BedType.bed1, absoluteMinAvailable := 3,
    overallStatus := "Available", riskLevel := "Medium Risk" }

/-- An order whose bed-type flags are all false. -/
def exOrderNoBed : Order :=
  { orderId := 6, resortId := 7, resort := "Alpha", propertyTypeId := 2, roomTypeId := 3,
    studio := false, bed1 := false, bed2 := false, bed3 := false, bed4 := false,
    arrival := 0, departure := 1, status := "Searching" }

/-- A record matching `exOrderNoBed` by key, holding 5 Studio units. -/
def exRecStudio : BlackoutRecord :=
  { resortId := 7, propertyTypeId := 2, roomTypeId := 3,
    studio := true, bed1 := false, bed2 := false, bed3 := false, bed4 := false,
    date := 0, availableCount := 5, runCount := 1 }

/-- Duplicate availability records for one (ResortId, Date): an earlier run
(RunCount 1) with 5 units and a later run (RunCount 2) with 3 units. -/
def exDupRun1 : BlackoutRecord :=
  { resortId := 7, propertyTypeId := 2, roomTypeId := 3,
    studio := false, bed1 := true, bed2 := false, bed3 := false, bed4 := false,
    date := 0, availableCount := 5, runCount := 1 }

def exDupRun2 : BlackoutRecord := { exDupRun1 with availableCount := 3, runCount := 2 }

/-- One-night order matching the duplicated records. -/
def exDupOrder : Order :=
  { orderId := 8, resortId := 7, resort := "Alpha", propertyTypeId := 2, roomTypeId := 3,
    studio := false, bed1 := true, bed2 := false, bed3 := false, bed4 := false,
    arrival := 0, departure := 1, status := "Searching" }

/-- An order whose departure equals its arrival (invalid date range). -/
def exBadOrder : Order :=
  { orderId := 99, resortId := 7, resort := "Alpha", propertyTypeId := 2, roomTypeId := 3,
    studio := false, bed1 := true, bed2 := false, bed3 := false, bed4 := false,
    arrival := 10, departure := 10, status := "Searching" }

/-- A valid two-night order processed after the invalid one. -/
def exGoodOrder : Order :=
  { orderId := 100, resortId := 7, resort := "Alpha", propertyTypeId := 2, roomTypeId := 3,
    studio := false, bed1 := true, bed2 := false, bed3 := false, bed4 := false,
    arrival := 10, departure := 12, status := "Searching" }

/-! ### Claim theorems -/

/-- Claim C1: for every order whose departure is strictly after its arrival,
the expansion generates exactly `(departure - arrival)` OrderNight rows, their
dates are exactly the inclusive range `[arrival, departure - 1]`, and the
departure night is never generated. -/
theorem orderNights_count_and_range (blackout : List BlackoutRecord) (o : Order)
    (h : o.arrival < o.departure) :
    (orderNights blackout o).length = (o.departure - o.arrival).toNat ∧
      (orderNights blackout o).map (fun n => n.date) = dateRange o.arrival (o.departure - 1) ∧
      ∀ n ∈ orderNights blackout o, o.arrival ≤ n.date ∧ n.date < o.departure := by
  have hcond : o.arrival ≤ o.departure - 1 := by omega
  unfold orderNights
  rw [if_pos hcond]
  refine ⟨?_, ?_, ?_⟩
  · rw [List.length_map, length_dateRange]
    congr 1
    omega
  · rw [List.map_map]
    exact List.map_id' _
  · intro n hn
    rcases List.mem_map.mp hn with ⟨d, hd, rfl⟩
    have hdr := mem_dateRange.mp hd
    refine ⟨hdr.1, ?_⟩
    show d < o.departure
    omega

/-- Witness for C1 at the concrete order `exOrder` (arrival 0, departure 3):
three nights, on days 0, 1 and 2. -/
theorem orderNights_count_and_range_witness :
    exOrder.arrival < exOrder.departure ∧
      ((orderNights [exRec] exOrder).length = (exOrder.departure - exOrder.arrival).toNat ∧
        (orderNights [exRec] exOrder).map (fun n => n.date)
            = dateRange exOrder.arrival (exOrder.departure - 1) ∧
        ∀ n ∈ orderNights [exRec] exOrder, exOrder.arrival ≤ n.date ∧ n.date < exOrder.departure) :=
  ⟨by decide, orderNights_count_and_range [exRec] exOrder (by decide)⟩

/-- Claim C2: the resolved available count of every generated order night is
the sum of AvailableCount over exactly the availability records whose
ResortId, PropertyTypeId and Date match the order and the night and - when
the order's bed type is known - whose flag for that bed type is true.  The
sum over an empty match set is 0, so a missing lookup resolves to 0, never
to a missing value. -/
theorem orderNight_availableCount_eq_sum (blackout : List BlackoutRecord) (o : Order)
    (n : OrderNight) (hn : n ∈ orderNights blackout o) :
    n.availableCount
      = ((blackout.filter (specNightMatch o n.date)).map (fun r => r.availableCount)).sum := by
  unfold orderNights at hn
  by_cases hc : o.arrival ≤ o.departure - 1
  · rw [if_pos hc] at hn
    rcases List.mem_map.mp hn with ⟨d, _, rfl⟩
    show availableCount blackout o d
        = ((blackout.filter (specNightMatch o d)).map (fun r => r.availableCount)).sum
    exact availableCount_eq_sum blackout o d
  · rw [if_neg hc] at hn
    cases hn

/-- The first generated night of `exOrder` against `[exRec]`: day 0 resolves
to the 4 matching Bed1 units. -/
def exNightRow : OrderNight :=
  { orderId := 11, resortId := 7, resort := "Alpha", propertyTypeId := 2, roomTypeId := 3,
    bedType := some BedType.bed1, date := 0, arrival := 0, departure := 3,
    availableCount := 4, status := "Searching" }

/-- Witness for C2: the concrete night `exNightRow` of `exOrder` against the
one-record table `[exRec]`. -/
theorem orderNight_availableCount_eq_sum_witness :
    exNightRow ∈ orderNights [exRec] exOrder ∧
      exNightRow.availableCount
        = (([exRec].filter (specNightMatch exOrder exNightRow.date)).map
            (fun r => r.availableCount)).sum :=
  ⟨by decide, orderNight_availableCount_eq_sum [exRec] exOrder exNightRow (by decide)⟩

/-- Claim C3: every row (k, m) of the per-order aggregation carries the
minimum of AvailableCount over the rows of group k, so m is a lower bound of
every individual night's available count of that order group. -/
theorem minAvailability_is_group_min (rows : List OrderNight) (k : OrderKey) (m : Int)
    (h : (k, m) ∈ calculateMinimumAvailability rows) :
    listMin (orderGroupVals rows k) = some m ∧
      ∀ r ∈ rows, orderKeyOf r = k → m ≤ r.availableCount := by
  have hmin := mem_calcMin h
  refine ⟨hmin, ?_⟩
  intro r hr hk
  exact listMin_le hmin _ (mem_orderGroupVals hr hk)

/-- Witness for C3 on the two-night group `exRows`: the aggregate row is
(exOrderKey, 3) and 3 bounds both nights (5 and 3). -/
theorem minAvailability_is_group_min_witness :
    (exOrderKey, (3 : Int)) ∈ calculateMinimumAvailability exRows ∧
      (listMin (orderGroupVals exRows exOrderKey) = some 3 ∧
        ∀ r ∈ exRows, orderKeyOf r = exOrderKey → (3 : Int) ≤ r.availableCount) :=
  ⟨by decide, minAvailability_is_group_min exRows exOrderKey 3 (by decide)⟩

/-- Claim C4: the absolute minimum of a (Resort, BedType) aggregate row is a
lower bound of the per-order Min_Available of every order group with that
resort and bed type. -/
theorem overallMin_le_orderMin (rows : List OrderNight) (k : OrderKey) (m : Int)
    (hm : (k, m) ∈ calculateMinimumAvailability rows)
    (g : OverallRow) (hg : g ∈ calculateOverallMinimumAvailability rows)
    (hres : g.resort = k.resort) (hbed : g.bedType = k.bedType) :
    g.absoluteMinAvailable ≤ m := by
  have hkmin := mem_calcMin hm
  have hgmin := (mem_calcOverall hg).1
  have hmmem : m ∈ orderGroupVals rows k := listMin_mem hkmin
  rcases of_mem_orderGroupVals hmmem with ⟨r, hr, hkey, hval⟩
  have hgk : groupKeyOf r = { resort := g.resort, bedType := g.bedType } := by
    unfold groupKeyOf
    unfold orderKeyOf at hkey
    have h1 : r.resort = k.resort := congrArg OrderKey.resort hkey
    have h2 : r.bedType = k.bedType := congrArg OrderKey.bedType hkey
    rw [h1, h2, hres, hbed]
  have : r.availableCount ∈ overallGroupVals rows { resort := g.resort, bedType := g.bedType } :=
    mem_overallGroupVals hr hgk
  have hle := listMin_le hgmin _ this
  rw [hval] at hle
  exact hle

/-- Witness for C4 on `exRows`: the global minimum 3 of the (Alpha, Bed1)
group bounds the per-order minimum 3 of order 1. -/
theorem overallMin_le_orderMin_witness :
    (exOrderKey, (3 : Int)) ∈ calculateMinimumAvailability exRows ∧
      exGroupRow ∈ calculateOverallMinimumAvailability exRows ∧
      exGroupRow.resort = exOrderKey.resort ∧
      exGroupRow.bedType = exOrderKey.bedType ∧
      exGroupRow.absoluteMinAvailable ≤ 3 :=
  ⟨by decide, by decide, rfl, rfl,
    overallMin_le_orderMin exRows exOrderKey 3 (by decide) exGroupRow (by decide) rfl rfl⟩

theorem overallStatus_notAvailable_iff (x : Int) :
    overallStatus x = "Not Available" ↔ ¬ (0 < x) := by
  unfold overallStatus
  by_cases hx : x > 0
  · rw [if_pos hx]
    constructor
    · intro h; exact absurd h (by decide)
    · intro h; exact absurd hx h
  · rw [if_neg hx]
    exact ⟨fun _ => hx, fun _ => rfl⟩

theorem riskLevel_critical_iff (x : Int) : riskLevel x = "Critical" ↔ x = 0 := by
  unfold riskLevel
  by_cases h0 : x = 0
  · rw [if_pos h0]
    exact ⟨fun _ => h0, fun _ => rfl⟩
  · rw [if_neg h0]
    by_cases h1 : x ≤ 1
    · rw [if_pos h1]
      exact ⟨fun h => absurd h (by decide), fun h => absurd h h0⟩
    · rw [if_neg h1]
      by_cases h3 : x ≤ 3
      · rw [if_pos h3]
        exact ⟨fun h => absurd h (by decide), fun h => absurd h h0⟩
      · rw [if_neg h3]
        exact ⟨fun h => absurd h (by decide), fun h => absurd h h0⟩

/-- Claim C5: Risk_Level is the pure function of Absolute_Min_Available that
maps 0 to Critical, 1 to High Risk, 2 and 3 to Medium Risk and everything
above 3 to Low Risk; every global aggregate row carries exactly that
function of its own minimum. -/
theorem riskLevel_thresholds :
    riskLevel 0 = "Critical" ∧ riskLevel 1 = "High Risk" ∧
      riskLevel 2 = "Medium Risk" ∧ riskLevel 3 = "Medium Risk" ∧
      (∀ x : Int, 3 < x → riskLevel x = "Low Risk") ∧
      ∀ (rows : List OrderNight) (g : OverallRow),
        g ∈ calculateOverallMinimumAvailability rows →
          g.riskLevel = riskLevel g.absoluteMinAvailable := by
  refine ⟨by decide, by decide, by decide, by decide, ?_, ?_⟩
  · intro x hx
    unfold riskLevel
    rw [if_neg (by omega), if_neg (by omega), if_neg (by omega)]
  · intro rows g hg
    exact (mem_calcOverall hg).2.2

/-- Witness for C5: the Low Risk case at 4, and the aggregate row of the
concrete group `exRows` carrying the function of its minimum 3. -/
theorem riskLevel_thresholds_witness :
    ((3 : Int) < 4 ∧ riskLevel 4 = "Low Risk") ∧
      (exGroupRow ∈ calculateOverallMinimumAvailability exRows ∧
        exGroupRow.riskLevel = riskLevel exGroupRow.absoluteMinAvailable) :=
  ⟨⟨by decide, riskLevel_thresholds.2.2.2.2.1 4 (by decide)⟩,
    ⟨by decide, riskLevel_thresholds.2.2.2.2.2 exRows exGroupRow (by decide)⟩⟩

/-- Counterexample to claim C6: `exOrderNoBed` has no true bed-type flag, so
its bed type is unknown - but the resolved count on its single night is 5,
not 0: the code skips the bed-type filter entirely when no flag is true and
sums every record matching ResortId, PropertyTypeId and Date. -/
theorem noBedFlag_count_not_zero :
    bedTypeOf exOrderNoBed = none ∧
      availableCount [exRecStudio] exOrderNoBed 0 = 5 ∧
      availableCount [exRecStudio] exOrderNoBed 0 ≠ 0 ∧
      (orderNights [exRecStudio] exOrderNoBed).map (fun n => n.availableCount) = [5] := by
  refine ⟨rfl, rfl, by decide, ?_⟩
  decide

/-- Claim C6 as amended: for an order with no true bed-type flag, the bed
type is unknown and no bed-type filtering happens at all - each night
resolves to the sum of AvailableCount over every record matching ResortId,
PropertyTypeId and Date, whatever its bed-type flags, which need not be 0. -/
theorem noBedFlag_sums_all_records (blackout : List BlackoutRecord) (o : Order)
    (hs : o.studio = false) (h1 : o.bed1 = false) (h2 : o.bed2 = false)
    (h3 : o.bed3 = false) (h4 : o.bed4 = false) (d : Int) :
    bedTypeOf o = none ∧
      availableCount blackout o d
        = ((blackout.filter (keyMatch o d)).map (fun r => r.availableCount)).sum := by
  have hbt : bedTypeOf o = none := by
    unfold bedTypeOf
    rw [hs, h1, h2, h3, h4]
    rfl
  refine ⟨hbt, ?_⟩
  unfold availableCount
  rw [hbt]
  exact sum_of_if_isEmpty _

/-- Witness for the amended C6 at `exOrderNoBed` and `[exRecStudio]`: the
night resolves to the full key-matching sum, here 5. -/
theorem noBedFlag_sums_all_records_witness :
    (exOrderNoBed.studio = false ∧ exOrderNoBed.bed1 = false ∧ exOrderNoBed.bed2 = false ∧
        exOrderNoBed.bed3 = false ∧ exOrderNoBed.bed4 = false) ∧
      (bedTypeOf exOrderNoBed = none ∧
        availableCount [exRecStudio] exOrderNoBed 0
          = (([exRecStudio].filter (keyMatch exOrderNoBed 0)).map (fun r => r.availableCount)).sum) :=
  ⟨⟨rfl, rfl, rfl, rfl, rfl⟩,
    noBedFlag_sums_all_records [exRecStudio] exOrderNoBed rfl rfl rfl rfl rfl 0⟩

/-- For claim C7, the code evaluated at the failing input: the order whose
departure equals its arrival contributes no rows, and the valid order after
it in the batch is still fully expanded (two nights of order 100).  The
function's whole caller-visible result is this row list (and summaries
derived from it); no error or skip count appears anywhere in it - the code
only prints a skip message for the invalid order. -/
theorem invalid_order_skipped_batch_continues :
    orderNights [] exBadOrder = [] ∧
      (mapOrdersToBlackoutData [] [exBadOrder, exGoodOrder]).map (fun n => n.orderId)
        = [100, 100] := by
  decide

/-- Counterexample to claim C8: on duplicate records of one (ResortId, Date)
with RunCounts 1 and 2, the engine resolves the night to the sum 8 of both
records, not to the value 3 that the spec's maximum-RunCount collapse (here
`specCollapseByMaxRunCount`) would give: the code never collapses by
RunCount. -/
theorem noRunCountCollapse_counterexample :
    availableCount [exDupRun1, exDupRun2] exDupOrder 0 = 8 ∧
      availableCount (specCollapseByMaxRunCount [exDupRun1, exDupRun2]) exDupOrder 0 = 3 ∧
      availableCount [exDupRun1, exDupRun2] exDupOrder 0
        ≠ availableCount (specCollapseByMaxRunCount [exDupRun1, exDupRun2]) exDupOrder 0 := by
  decide

theorem filter_map_setRunCount (f : BlackoutRecord → Nat) (p : BlackoutRecord → Bool)
    (hp : ∀ r, p { r with runCount := f r } = p r) (l : List BlackoutRecord) :
    (l.map (fun r => { r with runCount := f r })).filter p
      = (l.filter p).map (fun r => { r with runCount := f r }) := by
  induction l with
  | nil => rfl
  | cons x xs ih =>
    simp only [List.map_cons, List.filter_cons, hp x]
    cases hx : p x <;> simp [hx, ih]

theorem isEmpty_map_setRunCount (f : BlackoutRecord → Nat) (l : List BlackoutRecord) :
    (l.map (fun r => { r with runCount := f r })).isEmpty = l.isEmpty := by
  cases l <;> rfl

theorem sum_map_setRunCount (f : BlackoutRecord → Nat) (l : List BlackoutRecord) :
    ((l.map (fun r => { r with runCount := f r })).map (fun r => r.availableCount)).sum
      = (l.map (fun r => r.availableCount)).sum := by
  rw [List.map_map]
  rfl

/-- Claim C8 as amended: the engine performs no RunCount-based collapse at
all - RunCount is never read, so rewriting every record's RunCount in any
way whatsoever leaves every night's resolved count unchanged, and duplicate
records of one key are simply summed. -/
theorem availableCount_ignores_runCount (blackout : List BlackoutRecord)
    (f : BlackoutRecord → Nat) (o : Order) (d : Int) :
    availableCount (blackout.map (fun r => { r with runCount := f r })) o d
      = availableCount blackout o d := by
  unfold availableCount
  cases hbt : bedTypeOf o with
  | none =>
    simp only [hbt]
    rw [filter_map_setRunCount f (keyMatch o d) (fun r => rfl) blackout,
      isEmpty_map_setRunCount, sum_map_setRunCount]
  | some bt =>
    simp only [hbt]
    rw [filter_map_setRunCount f (keyMatch o d) (fun r => rfl) blackout,
      isEmpty_map_setRunCount]
    cases he : (blackout.filter (keyMatch o d)).isEmpty
    · simp only [he, Bool.false_eq_true, if_false]
      rw [filter_map_setRunCount f (bedFlag bt) (fun r => by cases bt <;> rfl),
        isEmpty_map_setRunCount, sum_map_setRunCount]
    · have hl : blackout.filter (keyMatch o d) = [] := List.isEmpty_iff.mp he
      simp [hl]

/-- Claim C9: the aggregations of an empty OrderNight set are the empty
result collections; both aggregation functions are total, so no exception
can be raised. -/
theorem empty_input_empty_outputs :
    calculateMinimumAvailability [] = [] ∧ calculateOverallMinimumAvailability [] = [] := by
  decide

/-- Claim C10: when every input available count is non-negative, a global
aggregate row reads Not Available exactly when it reads Critical - both
labels are derived from its minimum being zero. -/
theorem notAvailable_iff_critical (rows : List OrderNight)
    (h : ∀ r ∈ rows, 0 ≤ r.availableCount)
    (g : OverallRow) (hg : g ∈ calculateOverallMinimumAvailability rows) :
    (g.overallStatus = "Not Available" ↔ g.riskLevel = "Critical") := by
  obtain ⟨hmin, hst, hrk⟩ := mem_calcOverall hg
  have hmem := listMin_mem hmin
  rcases of_mem_overallGroupVals hmem with ⟨r, hr, _, hval⟩
  have hnn : 0 ≤ g.absoluteMinAvailable := hval ▸ h r hr
  rw [hst, hrk, overallStatus_notAvailable_iff, riskLevel_critical_iff]
  omega

/-- Witness for C10 on the concrete group `exRows` (counts 5 and 3, all
non-negative): its aggregate row is neither Not Available nor Critical. -/
theorem notAvailable_iff_critical_witness :
    (∀ r ∈ exRows, 0 ≤ r.availableCount) ∧
      exGroupRow ∈ calculateOverallMinimumAvailability exRows ∧
      (exGroupRow.overallStatus = "Not Available" ↔ exGroupRow.riskLevel = "Critical") :=
  ⟨by decide, by decide, notAvailable_iff_critical exRows (by decide) exGroupRow (by decide)⟩
